import Mathlib

/-!
# Acquisitions API: authentication, authorization and admission pipeline

A shallow embedding of the Express middleware and controllers of the
repository:

* `src/validations/users.validation.js`  (`userIdSchema`, `updateUserSchema`)
* `src/middleware/auth.middleware.js`    (`authenticateToken`, `requireRole`)
* `src/middleware/security.middleware.js` (`securityMiddleware`)
* `src/controllers/users.controller.js`  (`updateUser`, `deleteUser`)
* `src/routes/users.routes.js`           (`DELETE /:id`, `PUT /:id`)
* `src/services/auth.service.js`         (`comparePassword`, `authenticateUser`)
* `src/services/auth.service.js`         (`hashPassword`, `createUser`)
* `src/controllers/auth.controller.js`   (`signin`, `signup`)

A handler is a function from the request to the updated request and the
ordered list of observable effects it performs (`res.status(..).json(..)`,
`next()`, `next(err)`, calls into services, token signing, cookie writes).
Calls to the logger do not influence control flow or the response and are
left out of the trace.  Collaborators whose code lives outside the
repository (the JWT library, bcrypt, the Arcjet client, the database driver
behind the users services, the e-mail pattern and integer range of the schema
library, and the built-in string-to-number and lower-casing conversions of the
JavaScript runtime) are fields of `Env`.
-/

namespace Acquisitions

/-! ## JavaScript values -/

/-- Primitive JavaScript values carried by token claims, route parameters and
JSON bodies.  Numbers are integer valued: identifiers are integer keys. -/
inductive JsVal where
  | undefined
  | null
  | bool (b : Bool)
  | num (n : Int)
  | str (s : String)
  deriving DecidableEq, Repr

/-- JavaScript truthiness (`!!v`). -/
def JsVal.truthy : JsVal → Bool
  | .undefined => false
  | .null => false
  | .bool b => b
  | .num n => n != 0
  | .str s => s != ""

/-- String conversion used by template literals. -/
def JsVal.toStr : JsVal → String
  | .undefined => "undefined"
  | .null => "null"
  | .bool true => "true"
  | .bool false => "false"
  | .num n => toString n
  | .str s => s

/-- The `a || b` operator. -/
def JsVal.orElse (a b : JsVal) : JsVal := if a.truthy then a else b

/-- White space and line terminators of ECMAScript, the characters stripped by
`String.prototype.trim`: TAB, LF, VT, FF, CR, SP, NBSP, U+1680, U+2000 to
U+200A, LS, PS, U+202F, U+205F, U+3000 and U+FEFF. -/
def isJsWhiteSpace (c : Char) : Bool :=
  let n := c.toNat
  n == 0x09 || n == 0x0A || n == 0x0B || n == 0x0C || n == 0x0D || n == 0x20
    || n == 0xA0 || n == 0x1680 || (decide (0x2000 ≤ n) && decide (n ≤ 0x200A))
    || n == 0x2028 || n == 0x2029 || n == 0x202F || n == 0x205F || n == 0x3000
    || n == 0xFEFF

/-- Strips white space from both ends. -/
def trimChars (cs : List Char) : List Char :=
  ((cs.dropWhile isJsWhiteSpace).reverse.dropWhile isJsWhiteSpace).reverse

/-- `String.prototype.trim`. -/
def jsTrim (s : String) : String := String.mk (trimChars s.data)

/-- The `length` of a string: its number of UTF-16 code units. -/
def jsLength (s : String) : Nat :=
  (s.data.map (fun c => if c.toNat < 0x10000 then 1 else 2)).sum

/-- A JavaScript number by its exact value: `NaN`, an infinity, or a finite
value (positive and negative zero are one value, as `===` does not tell them
apart).  Every finite double is such a value. -/
inductive JsNum where
  | nan
  | inf (negative : Bool)
  | fin (q : ℚ)
  deriving DecidableEq, Repr

/-- The `Number(v)` conversion.  The conversion of a string (the numeric
string grammar of the runtime, with its rounding to the nearest double) is the
argument `stringToNumber`. -/
def Number (stringToNumber : String → JsNum) : JsVal → JsNum
  | .undefined => .nan
  | .null => .fin 0
  | .bool true => .fin 1
  | .bool false => .fin 0
  | .num n => .fin n
  | .str s => stringToNumber s

/-- Strict equality `===` of two numbers: `NaN` equals nothing. -/
def numStrictEq : JsNum → JsNum → Bool
  | .nan, _ => false
  | _, .nan => false
  | a, b => a == b

/-- Property read on a plain object: an absent key reads as `undefined`. -/
def getProp (o : List (String × JsVal)) (k : String) : JsVal :=
  match o.lookup k with
  | some v => v
  | none => .undefined

/-! ## Errors, requests, responses -/

/-- A thrown `Error`: its `message` and optional `code`. -/
structure JsError where
  message : String
  code : Option String := none
  deriving DecidableEq, Repr

/-- A failed schema parse with its issue messages. -/
structure ZodError where
  issues : List String
  deriving DecidableEq, Repr

/-- The identity attached to a request as `req.user`. -/
structure Actor where
  id : JsVal
  email : JsVal
  role : JsVal
  deriving DecidableEq, Repr

/-- The decoded payload returned by `jwttoken.verify`. -/
structure Claims where
  id : JsVal
  email : JsVal
  role : JsVal
  deriving DecidableEq, Repr

/-- The parts of an Express request the pipeline reads. -/
structure Req where
  /-- The parsed cookies (`req.cookies`), absent without a cookie parser. -/
  cookies : Option (List (String × String)) := none
  /-- The actor (`req.user`), absent until authentication attaches one. -/
  user : Option Actor := none
  /-- The route parameters (`req.params`). -/
  params : List (String × JsVal) := []
  /-- The parsed JSON body (`req.body`). -/
  body : Option (List (String × JsVal)) := none
  deriving DecidableEq, Repr

/-- A value of a JSON response body. -/
inductive BodyVal where
  | val (v : JsVal)
  | obj (fields : List (String × JsVal))
  | details (issues : List String)
  deriving DecidableEq, Repr

/-- A JSON response body: its keys in order. -/
abbrev Body := List (String × BodyVal)

/-- The validated update body; a field is `none` when its key is absent. -/
structure Updates where
  name : Option String := none
  email : Option String := none
  role : Option String := none
  deriving DecidableEq, Repr

/-- Options handed to `slidingWindow`; `max` is `none` when `undefined`. -/
structure SlidingWindowOptions where
  mode : String
  interval : String
  max : Option Nat
  name : String
  deriving DecidableEq, Repr

/-- Observable effects of a handler, in the order performed. -/
inductive Effect where
  /-- The call `res.status(status).json(body)`; `res.json(body)` has status 200. -/
  | respond (status : Nat) (body : Body)
  /-- The call `next()`. -/
  | next
  /-- The call `next(err)`. -/
  | nextErr (e : JsError)
  /-- The call `updateUserService(id, updates)`. -/
  | updateUserService (id : Int) (updates : Updates)
  /-- The call `deleteUserService(id)`. -/
  | deleteUserService (id : Int)
  /-- The call `slidingWindow(opts)` building the rate-limit rule. -/
  | slidingWindow (opts : SlidingWindowOptions)
  /-- The call `client.protect(req)`. -/
  | protect
  /-- The call `jwttoken.sign(payload)`. -/
  | sign (payload : Claims)
  /-- The call `cookies.set(res, name, value)`. -/
  | setCookie (name : String) (value : String)
  deriving DecidableEq, Repr

/-- True of a response effect. -/
def Effect.isRespond : Effect → Bool
  | .respond _ _ => true
  | _ => false

/-- Number of responses emitted in a trace. -/
def responseCount (t : List Effect) : Nat := (t.filter Effect.isRespond).length

/-- A handler maps the request to the updated request and its effects. -/
abbrev Handler := Req → Req × List Effect

/-- Collaborators whose code is outside the repository. -/
structure Env where
  /-- The e-mail pattern of the schema library (`z.string().email()`). -/
  isEmail : String → Bool
  /-- The conversion `Number(s)` of a string by the runtime. -/
  stringToNumber : String → JsNum
  /-- The method `String.prototype.toLowerCase` of the runtime. -/
  toLowerCase : String → String
  /-- The range the schema library's `int()` allows an integer: every integer
  in releases that test `Number.isInteger` only, the safe integers in releases
  that also bound it. -/
  intInRange : Int → Bool
  /-- The call `jwttoken.verify(token)`: the payload, or the thrown error. -/
  verify : String → Except JsError Claims
  /-- The users service `updateUser(id, updates)`: the updated row. -/
  updateUserService : Int → Updates → Except JsError (List (String × JsVal))
  /-- The users service `deleteUser(id)`. -/
  deleteUserService : Int → Except JsError Unit

/-! ## `src/validations/users.validation.js` -/

/-- The schema `userIdSchema = z.object({ id: z.coerce.number().int().positive() })`
applied with `safeParse` to `req.params`: the identifier is coerced with
`Number`, must be a number (not `NaN`), an integer within the range of the
library, and positive; the parsed `id` is the coerced number. -/
def userIdSchema (env : Env) (params : List (String × JsVal)) : Except ZodError Int :=
  match Number env.stringToNumber (getProp params "id") with
  | .nan => .error ⟨["Expected number, received nan"]⟩
  | .inf negative =>
    .error ⟨"Expected integer, received float"
      :: (if negative then ["Number must be greater than 0"] else [])⟩
  | .fin q =>
    let issues :=
      (if q.den = 1 ∧ env.intInRange q.num = true then []
        else ["Expected integer, received float"])
      ++ (if q > 0 then [] else ["Number must be greater than 0"])
    if issues = [] then .ok q.num else .error ⟨issues⟩

/-- The field `name: z.string().min(2).max(255).trim().optional()`: the length
checks run on the value as received, then the value is trimmed. -/
def nameField : JsVal → Except ZodError (Option String)
  | .undefined => .ok none
  | .str s =>
    if jsLength s < 2 then .error ⟨["String must contain at least 2 character(s)"]⟩
    else if jsLength s > 255 then
      .error ⟨["String must contain at most 255 character(s)"]⟩
    else .ok (some (jsTrim s))
  | _ => .error ⟨["Expected string"]⟩

/-- The field `email: z.string().email().toLowerCase().trim().optional()`: the
pattern is tested on the value as received, which is then lower-cased and
trimmed. -/
def emailField (env : Env) : JsVal → Except ZodError (Option String)
  | .undefined => .ok none
  | .str s =>
    if env.isEmail s then .ok (some (jsTrim (env.toLowerCase s)))
    else .error ⟨["Invalid email"]⟩
  | _ => .error ⟨["Expected string"]⟩

/-- The field `role: z.enum(['user', 'admin']).optional()`. -/
def roleField : JsVal → Except ZodError (Option String)
  | .undefined => .ok none
  | .str s =>
    if s = "user" ∨ s = "admin" then .ok (some s)
    else .error ⟨["Invalid enum value"]⟩
  | _ => .error ⟨["Invalid enum value"]⟩

/-- Number of own keys of the parsed update (`Object.keys(data).length`). -/
def Updates.keyCount (u : Updates) : Nat :=
  (if u.name.isSome then 1 else 0) + (if u.email.isSome then 1 else 0)
    + (if u.role.isSome then 1 else 0)

/-- The test `Object.prototype.hasOwnProperty.call(updates, 'role')`. -/
def Updates.hasRole (u : Updates) : Bool := u.role.isSome

/-- The schema `updateUserSchema` applied with `safeParse` to `req.body`:
unknown keys are stripped, each known field is optional, and the refinement
requires at least one key in the parsed data. -/
def updateUserSchema (env : Env)
    (body : Option (List (String × JsVal))) : Except ZodError Updates :=
  match body with
  | none => .error ⟨["Required"]⟩
  | some o =>
    match nameField (getProp o "name"), emailField env (getProp o "email"),
        roleField (getProp o "role") with
    | .ok n, .ok e, .ok r =>
      let data : Updates := { name := n, email := e, role := r }
      if data.keyCount > 0 then .ok data else .error ⟨["no update fields provided"]⟩
    | n, e, r =>
      .error ⟨(match n with | .error z => z.issues | .ok _ => [])
        ++ (match e with | .error z => z.issues | .ok _ => [])
        ++ (match r with | .error z => z.issues | .ok _ => [])⟩

/-- Body of the 400 response of a failed validation. -/
def validationFailed (e : ZodError) : Body :=
  [("error", .val (.str "validation failed")), ("details", .details e.issues)]

/-! ## `src/controllers/users.controller.js` -/

/-- The `catch` block shared by `updateUser` and `deleteUser`: a not-found
error becomes 404, any other error is forwarded to `next`. -/
def usersCatch (error : JsError) : List Effect :=
  if error.code = some "USER_NOT_FOUND" ∨ error.message = "user not found" then
    [.respond 404 [("error", .val (.str "user not found"))]]
  else [.nextErr error]

/-- The controller `updateUser` (users.controller.js lines 74-134). -/
def updateUser (env : Env) (req : Req) : List Effect :=
  match userIdSchema env req.params with
  | .error e => [.respond 400 (validationFailed e)]
  | .ok id =>
    match updateUserSchema env req.body with
    | .error e => [.respond 400 (validationFailed e)]
    | .ok updates =>
      match req.user with
      | none => [.respond 401 [("error", .val (.str "unauthorized"))]]
      | some authUser =>
        let isAdmin := decide (authUser.role = .str "admin")
        let isSelf :=
          numStrictEq (Number env.stringToNumber authUser.id)
            (Number env.stringToNumber (.num id))
        if !isAdmin && !isSelf then
          [.respond 403 [("error", .val (.str "forbidden"))]]
        else if !isAdmin && updates.hasRole then
          [.respond 403 [("error", .val (.str "forbidden: only admin can change role"))]]
        else
          .updateUserService id updates ::
            (match env.updateUserService id updates with
             | .ok updated =>
               [.respond 200 [("message", .val (.str "user updated successfully")),
                              ("user", .obj updated)]]
             | .error error => usersCatch error)

/-- The controller `deleteUser` (users.controller.js lines 136-174). -/
def deleteUser (env : Env) (req : Req) : List Effect :=
  match userIdSchema env req.params with
  | .error e => [.respond 400 (validationFailed e)]
  | .ok id =>
    match req.user with
    | none => [.respond 401 [("error", .val (.str "unauthorized"))]]
    | some authUser =>
      let isAdmin := decide (authUser.role = .str "admin")
      let isSelf :=
        numStrictEq (Number env.stringToNumber authUser.id)
          (Number env.stringToNumber (.num id))
      if !isAdmin && !isSelf then
        [.respond 403 [("error", .val (.str "forbidden"))]]
      else
        .deleteUserService id ::
          (match env.deleteUserService id with
           | .ok _ => [.respond 200 [("message", .val (.str "user deleted successfully"))]]
           | .error error => usersCatch error)

/-! ## `src/middleware/auth.middleware.js` -/

/-- The read `req.cookies?.token`; `none` when it is `undefined`. -/
def cookieToken (req : Req) : Option String :=
  match req.cookies with
  | none => none
  | some cs => cs.lookup "token"

/-- Body of a 401 response of the authentication middleware. -/
def unauthorized (message : String) : Body :=
  [("error", .val (.str "unauthorized")), ("message", .val (.str message))]

/-- The middleware `authenticateToken` (auth.middleware.js lines 8-46).  The
test `!token` rejects an absent cookie and the empty string alike.  The outer
`catch` (500) guards statements that do not throw in this model. -/
def authenticateToken (env : Env) : Handler := fun req =>
  match cookieToken req with
  | none => (req, [.respond 401 (unauthorized "authentication required - please sign in")])
  | some token =>
    if token = "" then
      (req, [.respond 401 (unauthorized "authentication required - please sign in")])
    else
      match env.verify token with
      | .ok payload =>
        ({ req with user := some { id := payload.id, email := payload.email,
                                   role := payload.role } },
         [.next])
      | .error _ => (req, [.respond 401 (unauthorized "invalid or expired token")])

/-- The argument of `requireRole`: a single role or an array of roles. -/
inductive RolesArg where
  | single (role : String)
  | many (roles : List String)
  deriving DecidableEq, Repr

/-- The normalisation `Array.isArray(roles) ? roles : [roles]`. -/
def RolesArg.allowedRoles : RolesArg → List String
  | .single role => [role]
  | .many roles => roles

/-- The test `allowedRoles.includes(v)` on an array of strings: only a string
value equal to an element is included. -/
def jsIncludes (allowedRoles : List String) : JsVal → Bool
  | .str s => allowedRoles.contains s
  | _ => false

/-- The call `allowedRoles.join(sep)`. -/
def jsJoin (sep : String) : List String → String
  | [] => ""
  | [x] => x
  | x :: xs => x ++ sep ++ jsJoin sep xs

/-- The middleware factory `requireRole` (auth.middleware.js lines 48-87).
The `catch` (500) guards statements that do not throw in this model. -/
def requireRole (roles : RolesArg) : Handler := fun req =>
  let allowedRoles := roles.allowedRoles
  match req.user with
  | none => (req, [.respond 401 (unauthorized "authentication required")])
  | some user =>
    if !jsIncludes allowedRoles user.role then
      (req, [.respond 403
        [("error", .val (.str "forbidden")),
         ("message", .val (.str ("access denied - requires "
            ++ jsJoin " or " allowedRoles ++ " role")))]])
    else (req, [.next])

/-! ## `src/routes/users.routes.js` -/

/-- Runs a route's handlers in order: the following handler runs when the
current one has called `next()`. -/
def runChain : List Handler → Req → Req × List Effect
  | [], req => (req, [])
  | h :: hs, req =>
    let r := h req
    if Effect.next ∈ r.2 then
      let r2 := runChain hs r.1
      (r2.1, r.2 ++ r2.2)
    else r

/-- A controller as the last handler of a route: it leaves the request as is. -/
def controller (c : Req → List Effect) : Handler := fun req => (req, c req)

/-- The route `router.put('/:id', authenticateToken, updateUser)`. -/
def putUserRoute (env : Env) : Handler :=
  runChain [authenticateToken env, controller (updateUser env)]

/-- The route
`router.delete('/:id', authenticateToken, requireRole('admin'), deleteUser)`. -/
def deleteUserRoute (env : Env) : Handler :=
  runChain [authenticateToken env, requireRole (.single "admin"),
            controller (deleteUser env)]

/-! ## `src/middleware/security.middleware.js` -/

/-- The reason of an admission decision, by its three indicators. -/
structure Reason where
  isBot : Bool
  isShield : Bool
  isRateLimit : Bool
  deriving DecidableEq, Repr

/-- The decision returned by `client.protect(req)`. -/
structure Decision where
  isDenied : Bool
  reason : Reason
  deriving DecidableEq, Repr

/-- The Arcjet client: building the sliding-window rule and evaluating a
request against the client extended with that rule; either may throw. -/
structure Arcjet where
  slidingWindow : SlidingWindowOptions → Except JsError Unit
  protect : SlidingWindowOptions → Req → Except JsError Decision

/-- The `switch (role)` of `securityMiddleware`: the variables `limit` and
`message` after it.  There is no `default` case: both stay `undefined`
(`none`) for any other role. -/
def rateBudget (role : JsVal) : Option Nat × Option String :=
  if role = .str "admin" then (some 20, some "admin request limit exceeded")
  else if role = .str "user" then (some 10, some "user request limit exceeded")
  else if role = .str "guest" then (some 5, some "guest request limit exceeded")
  else (none, none)

/-- The expression `req.user?.role || 'guest'`. -/
def roleClass (req : Req) : JsVal :=
  JsVal.orElse (match req.user with | some u => u.role | none => .undefined) (.str "guest")

/-- The options of the rule built for a request. -/
def ruleOptions (req : Req) : SlidingWindowOptions :=
  { mode := "LIVE", interval := "1m", max := (rateBudget (roleClass req)).1,
    name := (roleClass req).toStr ++ "-rate-limit" }

/-- Body of a 403 response of the admission check. -/
def forbiddenBody (message : String) : Body :=
  [("error", .val (.str "Forbidden")), ("message", .val (.str message))]

/-- Body of the 500 response of the `catch` block of `securityMiddleware`. -/
def securityErrorBody : Body :=
  [("error", .val (.str "Internal Server Error")),
   ("message", .val (.str "Something went wrong with security middleware"))]

/-- The middleware `securityMiddleware` (security.middleware.js lines 8-70).
The variable `message` set by the `switch` is not read afterwards. -/
def securityMiddleware (aj : Arcjet) (req : Req) : List Effect :=
  let opts := ruleOptions req
  let securityError : List Effect := [.respond 500 securityErrorBody]
  match aj.slidingWindow opts with
  | .error _ => .slidingWindow opts :: securityError
  | .ok _ =>
    match aj.protect opts req with
    | .error _ => .slidingWindow opts :: .protect :: securityError
    | .ok decision =>
      .slidingWindow opts :: .protect ::
        (if decision.isDenied && decision.reason.isBot then
          [.respond 403 (forbiddenBody "Automated requests are not allowed")]
        else if decision.isDenied && decision.reason.isShield then
          [.respond 403 (forbiddenBody "Request blocked by security policy")]
        else if decision.isDenied && decision.reason.isRateLimit then
          [.respond 403 (forbiddenBody "too many requests are not allowed")]
        else [.next])

/-! ## `src/services/auth.service.js` and `src/controllers/auth.controller.js` -/

/-- A row of the `users` table. -/
structure StoredUser where
  id : Int
  name : String
  email : String
  password : String
  role : String
  created_at : Int
  deriving DecidableEq, Repr

/-- The database: the rows of `users`, and the error any query raises when the
driver fails. -/
structure Db where
  rows : List StoredUser
  fault : Option JsError := none

/-- The query `db.select().from(users).where(eq(users.email, email)).limit(1)`. -/
def selectByEmail (db : Db) (email : String) : Except JsError (List StoredUser) :=
  match db.fault with
  | some e => .error e
  | none => .ok ((db.rows.filter (fun u => u.email = email)).take 1)

/-- Collaborators of the sign-in path outside the repository sources. -/
structure AuthEnv where
  /-- The call `signinSchema.safeParse(req.body)`: the e-mail and password. -/
  signinSchema : Option (List (String × JsVal)) → Except ZodError (String × String)
  /-- The call `bcrypt.compare(password, hash)`. -/
  bcryptCompare : String → String → Except JsError Bool
  /-- The call `jwttoken.sign(payload)`. -/
  sign : Claims → Except JsError String

/-- The object returned by `authenticateUser`: the row without its password. -/
structure AuthenticatedUser where
  id : Int
  name : String
  email : String
  role : String
  created_at : Int
  deriving DecidableEq, Repr

/-- The service `comparePassword`: any failure of bcrypt is rethrown as
`error comparing password`. -/
def comparePassword (bcryptCompare : String → String → Except JsError Bool)
    (password hashedPassword : String) : Except JsError Bool :=
  match bcryptCompare password hashedPassword with
  | .ok b => .ok b
  | .error _ => .error { message := "error comparing password" }

/-- The service `authenticateUser` (auth.service.js lines 29-57): the `catch`
rethrows the error unchanged. -/
def authenticateUser (db : Db) (bcryptCompare : String → String → Except JsError Bool)
    (email password : String) : Except JsError AuthenticatedUser :=
  match selectByEmail db email with
  | .error e => .error e
  | .ok [] => .error { message := "user not found" }
  | .ok (user :: _) =>
    match comparePassword bcryptCompare password user.password with
    | .error e => .error e
    | .ok isPasswordValid =>
      if !isPasswordValid then .error { message := "invalid password" }
      else .ok { id := user.id, name := user.name, email := user.email,
                 role := user.role, created_at := user.created_at }

/-- The `catch` block of `signin`. -/
def signinCatch (err : JsError) : List Effect :=
  if err.message = "user not found" ∨ err.message = "invalid password" then
    [.respond 401 [("error", .val (.str "invalid credentials"))]]
  else [.nextErr err]

/-- The controller `signin` (auth.controller.js lines 50-91). -/
def signin (env : AuthEnv) (db : Db) (req : Req) : List Effect :=
  match env.signinSchema req.body with
  | .error e => [.respond 400 (validationFailed e)]
  | .ok (email, password) =>
    match authenticateUser db env.bcryptCompare email password with
    | .error err => signinCatch err
    | .ok user =>
      let payload : Claims :=
        { id := .num user.id, email := .str user.email, role := .str user.role }
      .sign payload ::
        (match env.sign payload with
         | .error err => signinCatch err
         | .ok token =>
           [.setCookie "token" token,
            .respond 200
              [("message", .val (.str "user signed in")),
               ("user", .obj [("id", .num user.id), ("name", .str user.name),
                              ("email", .str user.email), ("role", .str user.role)])]])

/-- The validated sign-up body; `role` is `none` when the key is absent. -/
structure SignupData where
  name : String
  email : String
  password : String
  role : Option String := none
  deriving DecidableEq, Repr

/-- Collaborators of the sign-up path outside the repository sources. -/
structure SignupEnv where
  /-- The call `signupSchema.safeParse(req.body)`. -/
  signupSchema : Option (List (String × JsVal)) → Except ZodError SignupData
  /-- The call `bcrypt.hash(password, rounds)`. -/
  bcryptHash : String → Nat → Except JsError String
  /-- The statement `db.insert(users).values({name, email, password, role})
  .returning({id, name, email, role, created_at})`: the new row. -/
  insertUser : String → String → String → String → Except JsError AuthenticatedUser
  /-- The call `jwttoken.sign(payload)`. -/
  sign : Claims → Except JsError String

/-- The service `hashPassword`: any failure of bcrypt is rethrown as
`error hashing password`. -/
def hashPassword (bcryptHash : String → Nat → Except JsError String)
    (password : String) : Except JsError String :=
  match bcryptHash password 10 with
  | .ok h => .ok h
  | .error _ => .error { message := "error hashing password" }

/-- The service `createUser` (auth.service.js lines 59-77), with the default
`role = 'user'`; the `catch` rethrows the error unchanged. -/
def createUser (env : SignupEnv) (db : Db) (data : SignupData) :
    Except JsError AuthenticatedUser :=
  let role := data.role.getD "user"
  match selectByEmail db data.email with
  | .error e => .error e
  | .ok existingUser =>
    if existingUser.length > 0 then .error { message := "user already exists" }
    else
      match hashPassword env.bcryptHash data.password with
      | .error e => .error e
      | .ok passwordHash => env.insertUser data.name data.email passwordHash role

/-- The `catch` block of `signup`. -/
def signupCatch (err : JsError) : List Effect :=
  if err.message = "user with this email already exists" then
    [.respond 409 [("error", .val (.str "user with this email already exists"))]]
  else [.nextErr err]

/-- The controller `signup` (auth.controller.js lines 8-48). -/
def signup (env : SignupEnv) (db : Db) (req : Req) : List Effect :=
  match env.signupSchema req.body with
  | .error e => [.respond 400 (validationFailed e)]
  | .ok data =>
    match createUser env db data with
    | .error err => signupCatch err
    | .ok user =>
      let payload : Claims :=
        { id := .num user.id, email := .str user.email, role := .str user.role }
      .sign payload ::
        (match env.sign payload with
         | .error err => signupCatch err
         | .ok token =>
           [.setCookie "token" token,
            .respond 201
              [("message", .val (.str "user registered")),
               ("user", .obj [("id", .num user.id), ("name", .str user.name),
                              ("email", .str user.email), ("role", .str user.role)])]])

/-! ## Sample collaborators and requests -/

/-- A sample environment: the token `"t-admin"` verifies as actor 1 (admin),
`"t-user"` as actor 5 (user); every other token is rejected.  Its conversion
of strings lists the route parameters of the sample requests with the number
the runtime gives each (`5`, `5.0`, `7`, `1e3`). -/
def sampleEnv : Env where
  isEmail := fun s => s.data.contains '@'
  stringToNumber := fun s =>
    if s = "5" ∨ s = "5.0" then .fin 5
    else if s = "7" then .fin 7
    else if s = "1e3" then .fin 1000
    else .nan
  toLowerCase := fun s => String.mk (s.data.map Char.toLower)
  intInRange := fun n => decide (n.natAbs ≤ 9007199254740991)
  verify := fun t =>
    if t = "t-admin" then
      .ok { id := .num 1, email := .str "root@example.com", role := .str "admin" }
    else if t = "t-user" then
      .ok { id := .num 5, email := .str "ada@example.com", role := .str "user" }
    else .error { message := "invalid signature" }
  updateUserService := fun id u =>
    .ok [("id", .num id), ("name", .str (u.name.getD "Ada"))]
  deleteUserService := fun _ => .ok ()

/-- The actor with id 5 and role `user`. -/
def user5 : Actor := { id := .num 5, email := .str "ada@example.com", role := .str "user" }

/-- The actor with id 1 and role `admin`. -/
def admin1 : Actor :=
  { id := .num 1, email := .str "root@example.com", role := .str "admin" }

/-- Actor 5 renaming themselves: `PUT /5` with body `{name: 'Ada'}`. -/
def selfRenameReq : Req :=
  { user := some user5, params := [("id", .str "5")], body := some [("name", .str "Ada")] }

/-- Actor 5 trying to promote themselves: `PUT /5` with body `{role: 'admin'}`. -/
def selfPromoteReq : Req :=
  { user := some user5, params := [("id", .str "5")], body := some [("role", .str "admin")] }

/-- An actor whose token carries the id as the string `5.0`, renaming identity
5: `PUT /5` with body `{name: 'Ada'}`. -/
def stringIdRenameReq : Req :=
  { user := some { id := .str "5.0", email := .str "ada@example.com", role := .str "user" },
    params := [("id", .str "5")], body := some [("name", .str "Ada")] }

/-- Actor 5 renaming themselves with a name followed by a no-break space
(U+00A0): `PUT /5`. -/
def paddedRenameReq : Req :=
  { user := some user5, params := [("id", .str "5")],
    body := some [("name", .str "Ada\u00A0")] }

/-- Actor 5 renaming identity 1000: `PUT /1e3` with body `{name: 'Ada'}`. -/
def otherRenameReq : Req :=
  { user := some user5, params := [("id", .str "1e3")], body := some [("name", .str "Ada")] }

/-- The admin deleting identity 1000: `DELETE /1e3` carrying `token=t-admin`. -/
def adminDeleteExpReq : Req :=
  { cookies := some [("token", "t-admin")], params := [("id", .str "1e3")] }

/-- Actor 5 (role `user`) deleting their own identity: `DELETE /5` carrying
the cookie `token=t-user`. -/
def selfDeleteReq : Req :=
  { cookies := some [("token", "t-user")], params := [("id", .str "5")] }

/-- The admin deleting identity 5: `DELETE /5` carrying `token=t-admin`. -/
def adminDeleteReq : Req :=
  { cookies := some [("token", "t-admin")], params := [("id", .str "5")] }

/-- A backend that builds every rule and returns the given decision. -/
def decidingAj (d : Decision) : Arcjet where
  slidingWindow := fun _ => .ok ()
  protect := fun _ _ => .ok d

/-- A backend whose `protect` call rejects. -/
def unreachableAj : Arcjet where
  slidingWindow := fun _ => .ok ()
  protect := fun _ _ => .error { message := "decision service unreachable" }

/-- A denial for exceeding the rate limit only. -/
def rateLimitDenial : Decision :=
  { isDenied := true, reason := { isBot := false, isShield := false, isRateLimit := true } }

/-- A denial whose reason reports all three indicators. -/
def tripleDenial : Decision :=
  { isDenied := true, reason := { isBot := true, isShield := true, isRateLimit := true } }

/-- A denial whose reason is none of bot, shield or rate limit (for instance
an e-mail or sensitive-information rule). -/
def otherDenial : Decision :=
  { isDenied := true, reason := { isBot := false, isShield := false, isRateLimit := false } }

/-- A denial whose reason reports shield and rate limit, not bot. -/
def shieldRateDenial : Decision :=
  { isDenied := true, reason := { isBot := false, isShield := true, isRateLimit := true } }

/-- A request with actor 5 (role `user`) attached. -/
def user5Req : Req := { user := some user5 }

/-- A request with no actor attached. -/
def guestReq : Req := {}

/-- A request whose actor carries the role `moderator`. -/
def moderatorReq : Req :=
  { user := some { id := .num 9, email := .str "mod@example.com", role := .str "moderator" } }

/-- A request carrying the cookie `token=t-user`. -/
def userCookieReq : Req := { cookies := some [("token", "t-user")] }

/-- A sample sign-in environment: the body must carry string `email` and
`password`; a password matches the hash `hash:` followed by itself. -/
def sampleAuthEnv : AuthEnv where
  signinSchema := fun body =>
    match body with
    | some o =>
      match getProp o "email", getProp o "password" with
      | .str e, .str p => .ok (e, p)
      | _, _ => .error ⟨["Invalid input"]⟩
    | none => .error ⟨["Required"]⟩
  bcryptCompare := fun password hash => .ok (decide ("hash:" ++ password = hash))
  sign := fun payload => .ok ("jwt:" ++ payload.email.toStr)

/-- A database holding the single user `ada@example.com`. -/
def sampleDb : Db :=
  { rows := [{ id := 5, name := "Ada", email := "ada@example.com",
               password := "hash:lovelace", role := "user", created_at := 0 }] }

/-- A sign-in for the stored e-mail with a wrong password. -/
def wrongPasswordReq : Req :=
  { body := some [("email", .str "ada@example.com"), ("password", .str "byron")] }

/-- A sign-in for an e-mail no stored user has. -/
def unknownEmailReq : Req :=
  { body := some [("email", .str "eve@example.com"), ("password", .str "byron")] }

/-- A sample sign-up environment: the body must carry string `name`, `email`
and `password`; the new row receives id 6. -/
def sampleSignupEnv : SignupEnv where
  signupSchema := fun body =>
    match body with
    | some o =>
      match getProp o "name", getProp o "email", getProp o "password" with
      | .str n, .str e, .str p => .ok { name := n, email := e, password := p }
      | _, _, _ => .error ⟨["Invalid input"]⟩
    | none => .error ⟨["Required"]⟩
  bcryptHash := fun password _ => .ok ("hash:" ++ password)
  insertUser := fun name email _ role =>
    .ok { id := 6, name := name, email := email, role := role, created_at := 1 }
  sign := fun payload => .ok ("jwt:" ++ payload.email.toStr)

/-- A sign-up with the e-mail of the stored user `ada@example.com`. -/
def duplicateSignupReq : Req :=
  { body := some [("name", .str "Ada Two"), ("email", .str "ada@example.com"),
                  ("password", .str "analytical")] }

/-- A sign-up with an e-mail no stored user has. -/
def freshSignupReq : Req :=
  { body := some [("name", .str "Eve"), ("email", .str "eve@example.com"),
                  ("password", .str "analytical")] }

/-! ## Auxiliary facts -/

theorem numStrictEq_num (f : String → JsNum) (a : JsNum) (id : Int) :
    numStrictEq a (Number f (.num id)) = true ↔ a = .fin id := by
  cases a <;> simp [numStrictEq, Number]

/-- A validated id is positive and is the number its route parameter coerces to. -/
theorem userIdSchema_ok (env : Env) (params : List (String × JsVal)) (id : Int)
    (hid : userIdSchema env params = .ok id) :
    0 < id ∧ Number env.stringToNumber (getProp params "id") = .fin id := by
  unfold userIdSchema at hid
  cases hn : Number env.stringToNumber (getProp params "id") with
  | nan => rw [hn] at hid; cases hid
  | inf b => rw [hn] at hid; cases hid
  | fin q =>
    rw [hn] at hid
    dsimp only at hid
    by_cases hint : q.den = 1 ∧ env.intInRange q.num = true
    · by_cases hpos : q > 0
      · simp [hint, hpos] at hid
        have hq : ((q.num : Int) : ℚ) = q := Rat.coe_int_num_of_den_eq_one hint.1
        subst hid
        refine ⟨?_, by rw [hq]⟩
        exact Rat.num_pos.2 hpos
      · simp [hint, hpos] at hid
    · by_cases hpos : q > 0 <;> simp [hint, hpos] at hid

/-- A validated update has a `role` exactly when the body carries the key. -/
theorem updateUserSchema_role (env : Env) (body : Option (List (String × JsVal)))
    (updates : Updates) (hbody : updateUserSchema env body = .ok updates) :
    (updates.role = none ↔ ∃ o, body = some o ∧ getProp o "role" = .undefined)
    ∧ (∀ r, updates.role = some r ↔ ∃ o, body = some o ∧ getProp o "role" = .str r) := by
  unfold updateUserSchema at hbody
  cases body with
  | none => cases hbody
  | some o =>
    dsimp only at hbody
    cases hn : nameField (getProp o "name") with
    | error z => rw [hn] at hbody; cases hbody
    | ok n =>
      cases he : emailField env (getProp o "email") with
      | error z => rw [hn, he] at hbody; cases hbody
      | ok e =>
        cases hr : roleField (getProp o "role") with
        | error z => rw [hn, he, hr] at hbody; cases hbody
        | ok r =>
          rw [hn, he, hr] at hbody
          dsimp only at hbody
          split at hbody
          · injection hbody with hbody
            subst hbody
            cases hv : getProp o "role" with
            | undefined => rw [hv] at hr; simp [roleField] at hr; subst hr; simp [hv]
            | null => rw [hv] at hr; simp [roleField] at hr
            | bool b => rw [hv] at hr; simp [roleField] at hr
            | num k => rw [hv] at hr; simp [roleField] at hr
            | str t =>
              rw [hv] at hr
              by_cases ht : t = "user" ∨ t = "admin"
              · simp [roleField, ht] at hr
                subst hr
                simp [hv]
              · simp [roleField, ht] at hr
          · cases hbody

/-- The trace of `updateUser` once parameters, body and actor are fixed. -/
theorem updateUser_eq (env : Env) (req : Req) (id : Int) (updates : Updates)
    (authUser : Actor) (hid : userIdSchema env req.params = .ok id)
    (hbody : updateUserSchema env req.body = .ok updates)
    (huser : req.user = some authUser) :
    updateUser env req =
      if authUser.role ≠ .str "admin"
          ∧ Number env.stringToNumber authUser.id ≠ .fin id then
        [.respond 403 [("error", .val (.str "forbidden"))]]
      else if authUser.role ≠ .str "admin" ∧ updates.role ≠ none then
        [.respond 403 [("error", .val (.str "forbidden: only admin can change role"))]]
      else
        .updateUserService id updates ::
          (match env.updateUserService id updates with
           | .ok updated =>
             [.respond 200 [("message", .val (.str "user updated successfully")),
                            ("user", .obj updated)]]
           | .error error => usersCatch error) := by
  unfold updateUser
  rw [hid, hbody, huser]
  by_cases hadmin : authUser.role = .str "admin"
  · simp [hadmin]
  · by_cases hself : Number env.stringToNumber authUser.id = .fin id
    · have h := (numStrictEq_num env.stringToNumber
        (Number env.stringToNumber authUser.id) id).2 hself
      cases hr : updates.role <;> simp [hadmin, h, hr, Updates.hasRole] <;> simp [hself]
    · have h : numStrictEq (Number env.stringToNumber authUser.id)
          (Number env.stringToNumber (.num id)) = false := by
        rw [Bool.eq_false_iff]
        intro hc
        exact hself ((numStrictEq_num _ _ _).1 hc)
      simp [hadmin, hself, h]

theorem jsIncludes_iff (R : List String) (v : JsVal) :
    jsIncludes R v = true ↔ ∃ r, r ∈ R ∧ v = .str r := by
  cases v <;> simp [jsIncludes]

/-- Whenever a stored user has the e-mail of a well-formed sign-up,
`createUser` throws `user already exists`, and `signup` forwards that error
to `next`. -/
theorem signup_existing_email (env : SignupEnv) (db : Db) (req : Req)
    (data : SignupData) (u : StoredUser)
    (hbody : env.signupSchema req.body = .ok data)
    (hdb : db.fault = none) (hu : u ∈ db.rows) (hemail : u.email = data.email) :
    createUser env db data = .error { message := "user already exists" }
    ∧ signup env db req = [.nextErr { message := "user already exists" }] := by
  have hmem : u ∈ db.rows.filter (fun v => v.email = data.email) := by
    rw [List.mem_filter]
    exact ⟨hu, by simpa using hemail⟩
  have hcreate : createUser env db data = .error { message := "user already exists" } := by
    cases hf : db.rows.filter (fun v => v.email = data.email) with
    | nil => rw [hf] at hmem; cases hmem
    | cons v vs => simp [createUser, selectByEmail, hdb, hf]
  refine ⟨hcreate, ?_⟩
  simp [signup, hbody, hcreate, signupCatch]

/-- The trace of `securityMiddleware` for a denied decision, by the first
indicator its reason reports in the order bot, shield, rate limit; with none
of the three the trace ends in `next`. -/
theorem securityMiddleware_denied (aj : Arcjet) (req : Req) (decision : Decision)
    (hrule : aj.slidingWindow (ruleOptions req) = .ok ())
    (hprotect : aj.protect (ruleOptions req) req = .ok decision)
    (hdenied : decision.isDenied = true) :
    (decision.reason.isBot = true →
        securityMiddleware aj req =
          [.slidingWindow (ruleOptions req), .protect,
           .respond 403 [("error", .val (.str "Forbidden")),
                         ("message", .val (.str "Automated requests are not allowed"))]])
    ∧ (decision.reason.isBot = false → decision.reason.isShield = true →
        securityMiddleware aj req =
          [.slidingWindow (ruleOptions req), .protect,
           .respond 403 [("error", .val (.str "Forbidden")),
                         ("message", .val (.str "Request blocked by security policy"))]])
    ∧ (decision.reason.isBot = false → decision.reason.isShield = false →
        decision.reason.isRateLimit = true →
        securityMiddleware aj req =
          [.slidingWindow (ruleOptions req), .protect,
           .respond 403 [("error", .val (.str "Forbidden")),
                         ("message", .val (.str "too many requests are not allowed"))]])
    ∧ (decision.reason.isBot = false → decision.reason.isShield = false →
        decision.reason.isRateLimit = false →
        securityMiddleware aj req = [.slidingWindow (ruleOptions req), .protect, .next])
    ∧ ((decision.reason.isBot = true ∨ decision.reason.isShield = true
          ∨ decision.reason.isRateLimit = true) →
        responseCount (securityMiddleware aj req) = 1
        ∧ Effect.next ∉ securityMiddleware aj req) := by
  refine ⟨?_, ?_, ?_, ?_, ?_⟩
  · intro hbot
    simp [securityMiddleware, hrule, hprotect, hdenied, hbot, forbiddenBody]
  · intro hbot hshield
    simp [securityMiddleware, hrule, hprotect, hdenied, hbot, hshield, forbiddenBody]
  · intro hbot hshield hrate
    simp [securityMiddleware, hrule, hprotect, hdenied, hbot, hshield, hrate, forbiddenBody]
  · intro hbot hshield hrate
    simp [securityMiddleware, hrule, hprotect, hdenied, hbot, hshield, hrate]
  · intro h
    cases hbot : decision.reason.isBot <;> cases hshield : decision.reason.isShield <;>
      cases hrate : decision.reason.isRateLimit <;>
      simp [hbot, hshield, hrate] at h <;>
      simp [securityMiddleware, hrule, hprotect, hdenied, hbot, hshield, hrate,
        responseCount, Effect.isRespond]

/-! ## Claims -/

/-- C1: for an authenticated actor, a validated target id and a validated update
body, `updateUser` calls the update service exactly when the actor's role is
`admin`, or the actor's id equals the target id as numbers and the body has no
`role` field; otherwise it answers 403 and does not call the service.  A
non-admin acting on their own id with a `role` field gets the body
`{error: 'forbidden: only admin can change role'}`, which is not the ownership
body `{error: 'forbidden'}`.  The validated id is the positive number the
route parameter coerces to, and the validated body has a `role` exactly when
the request body carries that key. -/
theorem updateUser_authorization (env : Env) (req : Req) (id : Int)
    (updates : Updates) (authUser : Actor)
    (hid : userIdSchema env req.params = .ok id)
    (hbody : updateUserSchema env req.body = .ok updates)
    (huser : req.user = some authUser) :
    ((∃ i u, Effect.updateUserService i u ∈ updateUser env req) ↔
        (authUser.role = .str "admin" ∨
          (Number env.stringToNumber authUser.id = .fin id ∧ updates.role = none)))
    ∧ ((authUser.role = .str "admin" ∨
          (Number env.stringToNumber authUser.id = .fin id ∧ updates.role = none)) →
        ∃ rest, updateUser env req = .updateUserService id updates :: rest)
    ∧ (¬ (authUser.role = .str "admin" ∨
          (Number env.stringToNumber authUser.id = .fin id ∧ updates.role = none)) →
        ∃ body, updateUser env req = [.respond 403 body])
    ∧ (authUser.role ≠ .str "admin" → Number env.stringToNumber authUser.id = .fin id →
        updates.role ≠ none →
        updateUser env req =
          [.respond 403 [("error", .val (.str "forbidden: only admin can change role"))]])
    ∧ (authUser.role ≠ .str "admin" → Number env.stringToNumber authUser.id ≠ .fin id →
        updateUser env req = [.respond 403 [("error", .val (.str "forbidden"))]])
    ∧ ([("error", .val (.str "forbidden: only admin can change role"))] : Body)
        ≠ [("error", .val (.str "forbidden"))]
    ∧ (updates.role = none ↔ ∃ o, req.body = some o ∧ getProp o "role" = .undefined)
    ∧ (0 < id ∧ Number env.stringToNumber (getProp req.params "id") = .fin id) := by
  have heq := updateUser_eq env req id updates authUser hid hbody huser
  have hkey := (updateUserSchema_role env req.body updates hbody).1
  have hparam := userIdSchema_ok env req.params id hid
  by_cases hadmin : authUser.role = .str "admin"
  · have hrun : updateUser env req = .updateUserService id updates ::
          (match env.updateUserService id updates with
           | .ok updated =>
             [.respond 200 [("message", .val (.str "user updated successfully")),
                            ("user", .obj updated)]]
           | .error error => usersCatch error) := by
      rw [heq]; simp [hadmin]
    refine ⟨?_, ?_, ?_, ?_, ?_, by decide, hkey, hparam⟩
    · constructor
      · intro _; exact Or.inl hadmin
      · intro _; exact ⟨id, updates, by rw [hrun]; exact List.mem_cons_self _ _⟩
    · intro _; exact ⟨_, hrun⟩
    · intro h; exact absurd (Or.inl hadmin) h
    · intro h; exact absurd hadmin h
    · intro h; exact absurd hadmin h
  · by_cases hself : Number env.stringToNumber authUser.id = .fin id
    · by_cases hr : updates.role = none
      · have hrun : updateUser env req = .updateUserService id updates ::
            (match env.updateUserService id updates with
             | .ok updated =>
               [.respond 200 [("message", .val (.str "user updated successfully")),
                              ("user", .obj updated)]]
             | .error error => usersCatch error) := by
          rw [heq]; simp [hadmin, hself, hr]
        refine ⟨?_, ?_, ?_, ?_, ?_, by decide, hkey, hparam⟩
        · constructor
          · intro _; exact Or.inr ⟨hself, hr⟩
          · intro _; exact ⟨id, updates, by rw [hrun]; exact List.mem_cons_self _ _⟩
        · intro _; exact ⟨_, hrun⟩
        · intro h; exact absurd (Or.inr ⟨hself, hr⟩) h
        · intro _ _ h; exact absurd hr h
        · intro _ h; exact absurd hself h
      · have hrun : updateUser env req =
            [.respond 403 [("error", .val (.str "forbidden: only admin can change role"))]] := by
          rw [heq]; simp [hadmin, hself, hr]
        refine ⟨?_, ?_, ?_, ?_, ?_, by decide, hkey, hparam⟩
        · constructor
          · rintro ⟨i, u, hmem⟩
            rw [hrun] at hmem
            simp at hmem
          · rintro (h | ⟨_, h⟩)
            · exact absurd h hadmin
            · exact absurd h hr
        · rintro (h | ⟨_, h⟩)
          · exact absurd h hadmin
          · exact absurd h hr
        · intro _; exact ⟨_, hrun⟩
        · intro _ _ _; exact hrun
        · intro _ h; exact absurd hself h
    · have hrun : updateUser env req =
          [.respond 403 [("error", .val (.str "forbidden"))]] := by
        rw [heq]; simp [hadmin, hself]
      refine ⟨?_, ?_, ?_, ?_, ?_, by decide, hkey, hparam⟩
      · constructor
        · rintro ⟨i, u, hmem⟩
          rw [hrun] at hmem
          simp at hmem
        · rintro (h | ⟨h, _⟩)
          · exact absurd h hadmin
          · exact absurd h hself
      · rintro (h | ⟨h, _⟩)
        · exact absurd h hadmin
        · exact absurd h hself
      · intro _; exact ⟨_, hrun⟩
      · intro _ h; exact absurd h hself
      · intro _ _; exact hrun

/-- Witness of C1: actor 5 (role `user`) renaming themselves reaches the update
service, and so does an actor whose id is the string `5.0`; actor 5 sending a
`role` field for their own id gets the role 403; actor 5 renaming identity
1000 (`PUT /1e3`) gets the ownership 403; a name padded with a no-break space
reaches the service trimmed. -/
theorem updateUser_authorization_witness :
    (userIdSchema sampleEnv selfRenameReq.params = .ok 5
      ∧ updateUserSchema sampleEnv selfRenameReq.body = .ok { name := some "Ada" }
      ∧ selfRenameReq.user = some user5
      ∧ ∃ rest, updateUser sampleEnv selfRenameReq
          = .updateUserService 5 { name := some "Ada" } :: rest)
    ∧ (∃ rest, updateUser sampleEnv stringIdRenameReq
          = .updateUserService 5 { name := some "Ada" } :: rest)
    ∧ (updateUserSchema sampleEnv selfPromoteReq.body = .ok { role := some "admin" }
      ∧ updateUser sampleEnv selfPromoteReq =
          [.respond 403 [("error", .val (.str "forbidden: only admin can change role"))]])
    ∧ (userIdSchema sampleEnv otherRenameReq.params = .ok 1000
      ∧ updateUser sampleEnv otherRenameReq =
          [.respond 403 [("error", .val (.str "forbidden"))]])
    ∧ (∃ rest, updateUser sampleEnv paddedRenameReq
          = .updateUserService 5 { name := some "Ada" } :: rest) :=
  ⟨⟨rfl, rfl, rfl,
      (updateUser_authorization sampleEnv selfRenameReq 5 { name := some "Ada" } user5
        rfl rfl rfl).2.1 (Or.inr ⟨rfl, rfl⟩)⟩,
    (updateUser_authorization sampleEnv stringIdRenameReq 5 { name := some "Ada" }
        { id := .str "5.0", email := .str "ada@example.com", role := .str "user" }
        rfl rfl rfl).2.1 (Or.inr ⟨rfl, rfl⟩),
    ⟨rfl,
      (updateUser_authorization sampleEnv selfPromoteReq 5 { role := some "admin" } user5
        rfl rfl rfl).2.2.2.1 (by decide) rfl (by decide)⟩,
    ⟨rfl,
      (updateUser_authorization sampleEnv otherRenameReq 1000 { name := some "Ada" } user5
        rfl rfl rfl).2.2.2.2.1 (by decide) (by decide)⟩,
    (updateUser_authorization sampleEnv paddedRenameReq 5 { name := some "Ada" } user5
        rfl rfl rfl).2.1 (Or.inr ⟨rfl, rfl⟩)⟩

/-- C2: for every role set handed to `requireRole` (a single role string is the
one-element set) and every request, the checker calls `next`, emits no
response and leaves the request unchanged exactly when an actor is attached
whose role is a member of the set; it answers 401 when no actor is attached
and 403 with error `forbidden` when the actor's role is not a member.
Membership is exact: an `admin` actor is rejected by `requireRole(['user'])`
and a `user` actor by `requireRole('admin')`. -/
theorem requireRole_exact_membership (roles : RolesArg) (req : Req) :
    (∀ r, (RolesArg.single r).allowedRoles = [r])
    ∧ (requireRole roles req).1 = req
    ∧ (Effect.next ∈ (requireRole roles req).2 ↔
        ∃ a, req.user = some a ∧ ∃ r, r ∈ roles.allowedRoles ∧ a.role = .str r)
    ∧ ((∃ a, req.user = some a ∧ ∃ r, r ∈ roles.allowedRoles ∧ a.role = .str r) →
        (requireRole roles req).2 = [.next])
    ∧ (req.user = none →
        (requireRole roles req).2 = [.respond 401 (unauthorized "authentication required")])
    ∧ (∀ a, req.user = some a → (¬ ∃ r, r ∈ roles.allowedRoles ∧ a.role = .str r) →
        ∃ message, (requireRole roles req).2 =
          [.respond 403 [("error", .val (.str "forbidden")), ("message", message)]])
    ∧ (∀ a, req.user = some a → a.role = .str "admin" →
        ∃ body, (requireRole (.many ["user"]) req).2 = [.respond 403 body])
    ∧ (∀ a, req.user = some a → a.role = .str "user" →
        ∃ body, (requireRole (.single "admin") req).2 = [.respond 403 body]) := by
  refine ⟨fun _ => rfl, ?_, ?_, ?_, ?_, ?_, ?_, ?_⟩
  · unfold requireRole
    cases req.user with
    | none => rfl
    | some a => dsimp only; split <;> rfl
  · unfold requireRole
    cases hu : req.user with
    | none => simp
    | some a =>
      by_cases hin : jsIncludes roles.allowedRoles a.role = true
      · have h := (jsIncludes_iff _ _).1 hin
        simp [hin, h]
      · have h : ¬ ∃ r, r ∈ roles.allowedRoles ∧ a.role = .str r :=
          fun hc => hin ((jsIncludes_iff _ _).2 hc)
        simp [hin, h]
  · rintro ⟨a, hu, h⟩
    have hin := (jsIncludes_iff _ _).2 h
    unfold requireRole
    simp [hu, hin]
  · intro hu
    unfold requireRole
    simp [hu]
  · intro a hu h
    have hin : jsIncludes roles.allowedRoles a.role = false := by
      rw [Bool.eq_false_iff]
      exact fun hc => h ((jsIncludes_iff _ _).1 hc)
    unfold requireRole
    simp [hu, hin]
  · intro a hu hr
    unfold requireRole
    simp [hu, hr, jsIncludes, RolesArg.allowedRoles]
  · intro a hu hr
    unfold requireRole
    simp [hu, hr, jsIncludes, RolesArg.allowedRoles]

/-- Witness of C2: an `admin` actor passes `requireRole(['user', 'admin'])` and
is rejected with 403 by `requireRole(['user'])`. -/
theorem requireRole_exact_membership_witness :
    (requireRole (.many ["user", "admin"]) { user := some admin1 }).2 = [.next]
    ∧ ∃ body, (requireRole (.many ["user"]) { user := some admin1 }).2
        = [.respond 403 body] :=
  ⟨(requireRole_exact_membership (.many ["user", "admin"]) { user := some admin1 }).2.2.2.1
      ⟨admin1, rfl, "admin", by decide, rfl⟩,
   (requireRole_exact_membership (.many ["user"]) { user := some admin1 }).2.2.2.2.2.2.1
      admin1 rfl rfl⟩

/-- Counterexample to C3 as stated: actor 5 with role `user` deleting target 5
satisfies the owner-or-admin rule, yet the route never reaches the delete
service: `requireRole('admin')` answers 403. -/
theorem deleteUserRoute_owner_rejected :
    sampleEnv.verify "t-user" = .ok { id := user5.id, email := user5.email, role := user5.role }
    ∧ userIdSchema sampleEnv selfDeleteReq.params = .ok 5
    ∧ (deleteUserRoute sampleEnv selfDeleteReq).2 =
        [.next, .respond 403 [("error", .val (.str "forbidden")),
          ("message", .val (.str "access denied - requires admin role"))]]
    ∧ ¬ ((∃ i, Effect.deleteUserService i ∈ (deleteUserRoute sampleEnv selfDeleteReq).2) ↔
          (user5.role = .str "admin"
            ∨ Number sampleEnv.stringToNumber user5.id = .fin 5)) := by
  refine ⟨rfl, rfl, rfl, ?_⟩
  intro h
  have hmem := h.2 (Or.inr rfl)
  have htrace : (deleteUserRoute sampleEnv selfDeleteReq).2 =
      [.next, .respond 403 [("error", .val (.str "forbidden")),
        ("message", .val (.str "access denied - requires admin role"))]] := rfl
  rw [htrace] at hmem
  obtain ⟨i, hi⟩ := hmem
  simp at hi

/-- C3 (amended): for every request whose token verifies and whose target id
validates, the `DELETE /:id` route (authenticateToken, requireRole('admin'),
deleteUser) reaches the delete service exactly when the actor's role is
`admin`; for any other role, the actor's own id included, `requireRole`
answers 403 and the controller does not run.  The validated id is the
positive number the route parameter coerces to. -/
theorem deleteUserRoute_admin_only (env : Env) (req : Req) (token : String)
    (payload : Claims) (id : Int)
    (hcookie : cookieToken req = some token) (htoken : token ≠ "")
    (hverify : env.verify token = .ok payload)
    (hid : userIdSchema env req.params = .ok id) :
    ((∃ i, Effect.deleteUserService i ∈ (deleteUserRoute env req).2) ↔
        payload.role = .str "admin")
    ∧ (payload.role = .str "admin" →
        ∃ rest, (deleteUserRoute env req).2 = .next :: .next :: .deleteUserService id :: rest)
    ∧ (payload.role ≠ .str "admin" →
        (deleteUserRoute env req).2 =
          [.next, .respond 403 [("error", .val (.str "forbidden")),
            ("message", .val (.str "access denied - requires admin role"))]])
    ∧ (0 < id ∧ Number env.stringToNumber (getProp req.params "id") = .fin id) := by
  have hparam := userIdSchema_ok env req.params id hid
  have hauth : authenticateToken env req =
      ({ req with user := some { id := payload.id, email := payload.email,
                                 role := payload.role } }, [.next]) := by
    unfold authenticateToken
    simp [hcookie, htoken, hverify]
  by_cases hadmin : payload.role = .str "admin"
  · have hrun : (deleteUserRoute env req).2 = .next :: .next :: .deleteUserService id ::
        (match env.deleteUserService id with
         | .ok _ => [.respond 200 [("message", .val (.str "user deleted successfully"))]]
         | .error error => usersCatch error) := by
      simp [deleteUserRoute, runChain, hauth, requireRole, RolesArg.allowedRoles,
        jsIncludes, hadmin, controller, deleteUser, hid]
    refine ⟨⟨fun _ => hadmin, fun _ => ⟨id, ?_⟩⟩, fun _ => ⟨_, hrun⟩,
      fun h => absurd hadmin h, hparam⟩
    rw [hrun]
    simp
  · have hin : jsIncludes ["admin"] payload.role = false := by
      rw [Bool.eq_false_iff]
      intro hc
      obtain ⟨r, hr, hrole⟩ := (jsIncludes_iff _ _).1 hc
      simp at hr
      exact hadmin (hr ▸ hrole)
    have hrun : (deleteUserRoute env req).2 =
        [.next, .respond 403 [("error", .val (.str "forbidden")),
          ("message", .val (.str "access denied - requires admin role"))]] := by
      simp [deleteUserRoute, runChain, hauth, requireRole, RolesArg.allowedRoles, hin]
      decide
    refine ⟨⟨?_, fun h => absurd h hadmin⟩, fun h => absurd h hadmin, fun _ => hrun,
      hparam⟩
    rintro ⟨i, hi⟩
    rw [hrun] at hi
    simp at hi

/-- Witness of C3 (amended): the admin deleting identity 5 reaches the delete
service, and so does the admin deleting identity 1000 through `DELETE /1e3`. -/
theorem deleteUserRoute_admin_only_witness :
    cookieToken adminDeleteReq = some "t-admin"
    ∧ userIdSchema sampleEnv adminDeleteReq.params = .ok 5
    ∧ (∃ i, Effect.deleteUserService i ∈ (deleteUserRoute sampleEnv adminDeleteReq).2)
    ∧ userIdSchema sampleEnv adminDeleteExpReq.params = .ok 1000
    ∧ ∃ rest, (deleteUserRoute sampleEnv adminDeleteExpReq).2
        = .next :: .next :: .deleteUserService 1000 :: rest :=
  ⟨rfl, rfl,
    (deleteUserRoute_admin_only sampleEnv adminDeleteReq "t-admin"
      { id := .num 1, email := .str "root@example.com", role := .str "admin" } 5
      rfl (by decide) rfl rfl).1.2 rfl,
    rfl,
    (deleteUserRoute_admin_only sampleEnv adminDeleteExpReq "t-admin"
      { id := .num 1, email := .str "root@example.com", role := .str "admin" } 1000
      rfl (by decide) rfl rfl).2.1 rfl⟩

/-- C4 (defect): a guest request denied for its rate limit only.  The `switch`
has selected the message `guest request limit exceeded`, but the response
carries the fixed message `too many requests are not allowed`. -/
theorem securityMiddleware_rate_limit_message :
    roleClass guestReq = .str "guest"
    ∧ (rateBudget (roleClass guestReq)).2 = some "guest request limit exceeded"
    ∧ securityMiddleware (decidingAj rateLimitDenial) guestReq =
        [.slidingWindow { mode := "LIVE", interval := "1m", max := some 5,
                          name := "guest-rate-limit" },
         .protect,
         .respond 403 [("error", .val (.str "Forbidden")),
                       ("message", .val (.str "too many requests are not allowed"))]]
    ∧ securityMiddleware (decidingAj rateLimitDenial) guestReq ≠
        [.slidingWindow { mode := "LIVE", interval := "1m", max := some 5,
                          name := "guest-rate-limit" },
         .protect,
         .respond 403 [("error", .val (.str "Forbidden")),
                       ("message", .val (.str "guest request limit exceeded"))]] := by
  refine ⟨rfl, rfl, rfl, ?_⟩
  decide

/-- C5 (defect): for a denied decision the tests run in the order bot, shield,
rate limit, each answering 403 and returning: a reason reporting bot gets
`Automated requests are not allowed` whatever the other indicators, one
reporting shield and not bot gets `Request blocked by security policy`
whatever the rate-limit indicator, and with any of the three indicators
exactly one response is emitted and `next` is not called.  But a denied
decision reporting none of the three, here for a request of actor 5, emits no
response and reaches `next`, so "exactly one response and no `next`" fails for
it. -/
theorem securityMiddleware_precedence :
    (∀ (aj : Arcjet) (req : Req) (decision : Decision),
        aj.slidingWindow (ruleOptions req) = .ok () →
        aj.protect (ruleOptions req) req = .ok decision →
        decision.isDenied = true →
        (decision.reason.isBot = true →
          securityMiddleware aj req =
            [.slidingWindow (ruleOptions req), .protect,
             .respond 403 [("error", .val (.str "Forbidden")),
                           ("message", .val (.str "Automated requests are not allowed"))]])
        ∧ (decision.reason.isBot = false → decision.reason.isShield = true →
          securityMiddleware aj req =
            [.slidingWindow (ruleOptions req), .protect,
             .respond 403 [("error", .val (.str "Forbidden")),
                           ("message", .val (.str "Request blocked by security policy"))]])
        ∧ ((decision.reason.isBot = true ∨ decision.reason.isShield = true
              ∨ decision.reason.isRateLimit = true) →
            responseCount (securityMiddleware aj req) = 1
            ∧ Effect.next ∉ securityMiddleware aj req))
    ∧ securityMiddleware (decidingAj tripleDenial) guestReq =
        [.slidingWindow (ruleOptions guestReq), .protect,
         .respond 403 [("error", .val (.str "Forbidden")),
                       ("message", .val (.str "Automated requests are not allowed"))]]
    ∧ securityMiddleware (decidingAj shieldRateDenial) guestReq =
        [.slidingWindow (ruleOptions guestReq), .protect,
         .respond 403 [("error", .val (.str "Forbidden")),
                       ("message", .val (.str "Request blocked by security policy"))]]
    ∧ (responseCount (securityMiddleware (decidingAj rateLimitDenial) user5Req) = 1
        ∧ Effect.next ∉ securityMiddleware (decidingAj rateLimitDenial) user5Req)
    ∧ otherDenial.isDenied = true
    ∧ securityMiddleware (decidingAj otherDenial) user5Req =
        [.slidingWindow { mode := "LIVE", interval := "1m", max := some 10,
                          name := "user-rate-limit" },
         .protect, .next]
    ∧ ¬ (responseCount (securityMiddleware (decidingAj otherDenial) user5Req) = 1
          ∧ Effect.next ∉ securityMiddleware (decidingAj otherDenial) user5Req) := by
  refine ⟨?_, ?_, ?_, ?_, rfl, rfl, ?_⟩
  · intro aj req decision hrule hprotect hdenied
    have h := securityMiddleware_denied aj req decision hrule hprotect hdenied
    exact ⟨h.1, h.2.1, h.2.2.2.2⟩
  · exact (securityMiddleware_denied (decidingAj tripleDenial) guestReq tripleDenial
      rfl rfl rfl).1 rfl
  · exact (securityMiddleware_denied (decidingAj shieldRateDenial) guestReq
      shieldRateDenial rfl rfl rfl).2.1 rfl rfl
  · exact (securityMiddleware_denied (decidingAj rateLimitDenial) user5Req
      rateLimitDenial rfl rfl rfl).2.2.2.2 (Or.inr (Or.inr rfl))
  · intro h
    have hrun := (securityMiddleware_denied (decidingAj otherDenial) user5Req otherDenial
      rfl rfl rfl).2.2.2.1 rfl rfl rfl
    rw [hrun] at h
    exact h.2 (by simp)

/-- C6 (defect): the budget is 20 for `admin`, 10 for `user` and 5 when no actor
is attached or the actor carries no role; but for an actor whose role is any
other string, here `moderator`, the `switch` selects nothing and the rule is
built with `max` undefined. -/
theorem securityMiddleware_budget_undefined :
    (∀ a : Actor, a.role = .str "admin" → (ruleOptions { user := some a }).max = some 20)
    ∧ (∀ a : Actor, a.role = .str "user" → (ruleOptions { user := some a }).max = some 10)
    ∧ (ruleOptions guestReq).max = some 5
    ∧ (∀ a : Actor, a.role = .undefined → (ruleOptions { user := some a }).max = some 5)
    ∧ (ruleOptions moderatorReq).max = none
    ∧ securityMiddleware (decidingAj { isDenied := false, reason := ⟨false, false, false⟩ })
          moderatorReq =
        [.slidingWindow { mode := "LIVE", interval := "1m", max := none,
                          name := "moderator-rate-limit" },
         .protect, .next] := by
  refine ⟨?_, ?_, rfl, ?_, rfl, rfl⟩
  · intro a h
    simp [ruleOptions, roleClass, JsVal.orElse, JsVal.truthy, h, rateBudget]
  · intro a h
    simp [ruleOptions, roleClass, JsVal.orElse, JsVal.truthy, h, rateBudget]
  · intro a h
    simp [ruleOptions, roleClass, JsVal.orElse, JsVal.truthy, h, rateBudget]

/-- C7 (defect): a denied decision whose reason is none of bot, shield or rate
limit falls through the three tests: no response is emitted and `next` is
called. -/
theorem securityMiddleware_denied_admitted :
    otherDenial.isDenied = true
    ∧ securityMiddleware (decidingAj otherDenial) guestReq =
        [.slidingWindow { mode := "LIVE", interval := "1m", max := some 5,
                          name := "guest-rate-limit" },
         .protect, .next]
    ∧ responseCount (securityMiddleware (decidingAj otherDenial) guestReq) = 0
    ∧ Effect.next ∈ securityMiddleware (decidingAj otherDenial) guestReq := by
  refine ⟨rfl, rfl, rfl, ?_⟩
  decide

/-- C8: when building the rate-limit rule throws, or the backend's `protect`
call throws or rejects, `securityMiddleware` answers with status 500 and a
JSON body whose keys are `error` and `message`; this is its only response and
`next` is called neither with nor without an error. -/
theorem securityMiddleware_fails_closed (aj : Arcjet) (req : Req)
    (hfail : (∃ e, aj.slidingWindow (ruleOptions req) = .error e)
      ∨ (∃ e, aj.protect (ruleOptions req) req = .error e)) :
    ∃ calls,
      securityMiddleware aj req = calls ++ [.respond 500 securityErrorBody]
      ∧ securityErrorBody.map Prod.fst = ["error", "message"]
      ∧ responseCount (securityMiddleware aj req) = 1
      ∧ Effect.next ∉ securityMiddleware aj req
      ∧ ∀ e, Effect.nextErr e ∉ securityMiddleware aj req := by
  cases hrule : aj.slidingWindow (ruleOptions req) with
  | error e =>
    refine ⟨[.slidingWindow (ruleOptions req)], ?_, rfl, ?_, ?_, ?_⟩ <;>
      simp [securityMiddleware, hrule, responseCount, Effect.isRespond]
  | ok u =>
    rcases hfail with ⟨e, he⟩ | ⟨e, he⟩
    · rw [hrule] at he; cases he
    · refine ⟨[.slidingWindow (ruleOptions req), .protect], ?_, rfl, ?_, ?_, ?_⟩ <;>
        simp [securityMiddleware, hrule, he, responseCount, Effect.isRespond]

/-- Witness of C8: a backend whose `protect` call rejects yields the 500
response for a guest request. -/
theorem securityMiddleware_fails_closed_witness :
    ∃ calls,
      securityMiddleware unreachableAj guestReq = calls ++ [.respond 500 securityErrorBody]
      ∧ securityErrorBody.map Prod.fst = ["error", "message"]
      ∧ responseCount (securityMiddleware unreachableAj guestReq) = 1
      ∧ Effect.next ∉ securityMiddleware unreachableAj guestReq
      ∧ ∀ e, Effect.nextErr e ∉ securityMiddleware unreachableAj guestReq :=
  securityMiddleware_fails_closed unreachableAj guestReq
    (Or.inr ⟨{ message := "decision service unreachable" }, rfl⟩)

/-- C9: provided verification rejects the empty string, `authenticateToken`
calls `next` exactly when the `token` cookie is present and `jwttoken.verify`
succeeds on it, and then the attached actor's id, email and role are those of
the verified payload.  When the cookie is absent or verification fails it
answers 401 with error `unauthorized`, leaves the request without a new actor
and does not call `next`; the response to a failed verification does not
depend on the error raised. -/
theorem authenticateToken_contract (env : Env) (req : Req)
    (hempty : ∀ p, env.verify "" ≠ .ok p) :
    (Effect.next ∈ (authenticateToken env req).2 ↔
        ∃ t p, cookieToken req = some t ∧ env.verify t = .ok p)
    ∧ (∀ t p, cookieToken req = some t → env.verify t = .ok p →
        authenticateToken env req =
          ({ req with user := some { id := p.id, email := p.email, role := p.role } },
           [.next]))
    ∧ (cookieToken req = none →
        authenticateToken env req =
          (req, [.respond 401 [("error", .val (.str "unauthorized")),
            ("message", .val (.str "authentication required - please sign in"))]]))
    ∧ (∀ t e, cookieToken req = some t → env.verify t = .error e →
        (authenticateToken env req).1 = req
        ∧ ∃ message, (authenticateToken env req).2 =
            [.respond 401 [("error", .val (.str "unauthorized")), ("message", message)]])
    ∧ (∀ t e, cookieToken req = some t → t ≠ "" → env.verify t = .error e →
        authenticateToken env req =
          (req, [.respond 401 [("error", .val (.str "unauthorized")),
            ("message", .val (.str "invalid or expired token"))]])) := by
  refine ⟨?_, ?_, ?_, ?_, ?_⟩
  · constructor
    · intro hnext
      unfold authenticateToken at hnext
      cases hc : cookieToken req with
      | none => simp [hc] at hnext
      | some t =>
        by_cases ht : t = ""
        · simp [hc, ht] at hnext
        · cases hv : env.verify t with
          | error e => simp [hc, ht, hv] at hnext
          | ok p => exact ⟨t, p, rfl, hv⟩
    · rintro ⟨t, p, hc, hv⟩
      have ht : t ≠ "" := fun h => hempty p (h ▸ hv)
      unfold authenticateToken
      simp [hc, ht, hv]
  · intro t p hc hv
    have ht : t ≠ "" := fun h => hempty p (h ▸ hv)
    unfold authenticateToken
    simp [hc, ht, hv]
  · intro hc
    unfold authenticateToken
    simp [hc, unauthorized]
  · intro t e hc hv
    unfold authenticateToken
    by_cases ht : t = ""
    · simp [hc, ht, unauthorized]
    · simp [hc, ht, hv, unauthorized]
  · intro t e hc ht hv
    unfold authenticateToken
    simp [hc, ht, hv, unauthorized]

/-- Witness of C9: the cookie `token=t-user` verifies, `next` is called and
actor 5 is attached. -/
theorem authenticateToken_contract_witness :
    (∀ p, sampleEnv.verify "" ≠ .ok p)
    ∧ authenticateToken sampleEnv userCookieReq =
        ({ userCookieReq with user := some user5 }, [.next]) :=
  ⟨fun _ h => by simp [sampleEnv] at h,
   (authenticateToken_contract sampleEnv userCookieReq
      (fun _ h => by simp [sampleEnv] at h)).2.1 "t-user"
      { id := .num 5, email := .str "ada@example.com", role := .str "user" } rfl rfl⟩

/-- C10: for a sign-in request with a well-formed body, when no stored user has
the e-mail, or the password does not match the hash of the stored user with
that e-mail, `signin` answers 401 with body exactly
`{error: 'invalid credentials'}`: the same trace in both cases, with no token
signed and no cookie set. -/
theorem signin_invalid_credentials (env : AuthEnv) (db : Db) (req : Req)
    (email password : String)
    (hbody : env.signinSchema req.body = .ok (email, password))
    (hdb : db.fault = none)
    (hfail : (∀ u ∈ db.rows, u.email ≠ email)
      ∨ (∃ u rest, db.rows.filter (fun u => u.email = email) = u :: rest
          ∧ env.bcryptCompare password u.password = .ok false)) :
    signin env db req = [.respond 401 [("error", .val (.str "invalid credentials"))]]
    ∧ (∀ payload, Effect.sign payload ∉ signin env db req)
    ∧ (∀ name value, Effect.setCookie name value ∉ signin env db req)
    ∧ ((∀ u ∈ db.rows, u.email ≠ email) →
        authenticateUser db env.bcryptCompare email password
          = .error { message := "user not found" })
    ∧ ((∃ u rest, db.rows.filter (fun u => u.email = email) = u :: rest
          ∧ env.bcryptCompare password u.password = .ok false) →
        authenticateUser db env.bcryptCompare email password
          = .error { message := "invalid password" }) := by
  have hnone : (∀ u ∈ db.rows, u.email ≠ email) →
      authenticateUser db env.bcryptCompare email password
        = .error { message := "user not found" } := by
    intro h
    have hf : db.rows.filter (fun u => u.email = email) = [] := by
      rw [List.filter_eq_nil_iff]
      intro u hu
      simpa using h u hu
    simp [authenticateUser, selectByEmail, hdb, hf]
  have hbad : (∃ u rest, db.rows.filter (fun u => u.email = email) = u :: rest
      ∧ env.bcryptCompare password u.password = .ok false) →
      authenticateUser db env.bcryptCompare email password
        = .error { message := "invalid password" } := by
    rintro ⟨u, rest, hf, hcmp⟩
    simp [authenticateUser, selectByEmail, hdb, hf, comparePassword, hcmp]
  have hrun : signin env db req =
      [.respond 401 [("error", .val (.str "invalid credentials"))]] := by
    rcases hfail with h | h
    · simp [signin, hbody, hnone h, signinCatch]
    · simp [signin, hbody, hbad h, signinCatch]
  refine ⟨hrun, ?_, ?_, hnone, hbad⟩
  · intro payload
    rw [hrun]
    simp
  · intro name value
    rw [hrun]
    simp

/-- Witness of C10: a wrong password for a stored e-mail and an e-mail no
stored user has both yield the 401 `invalid credentials` response. -/
theorem signin_invalid_credentials_witness :
    sampleAuthEnv.signinSchema wrongPasswordReq.body = .ok ("ada@example.com", "byron")
    ∧ sampleAuthEnv.signinSchema unknownEmailReq.body = .ok ("eve@example.com", "byron")
    ∧ signin sampleAuthEnv sampleDb wrongPasswordReq =
        [.respond 401 [("error", .val (.str "invalid credentials"))]]
    ∧ signin sampleAuthEnv sampleDb unknownEmailReq =
        [.respond 401 [("error", .val (.str "invalid credentials"))]] :=
  ⟨rfl, rfl,
   (signin_invalid_credentials sampleAuthEnv sampleDb wrongPasswordReq
      "ada@example.com" "byron" rfl rfl
      (Or.inr ⟨_, [], rfl, rfl⟩)).1,
   (signin_invalid_credentials sampleAuthEnv sampleDb unknownEmailReq
      "eve@example.com" "byron" rfl rfl
      (Or.inl (by decide))).1⟩

/-- C11 (defect): a well-formed sign-up whose e-mail belongs to a stored user.
`createUser` fails on its existing-user check with the message
`user already exists`; the `catch` of `signup` tests for the message
`user with this email already exists`, so no 409 is sent: the only effect is
`next(err)`.  No token is signed and no cookie is set.  A fresh e-mail is
registered with 201. -/
theorem signup_duplicate_forwarded :
    sampleSignupEnv.signupSchema duplicateSignupReq.body =
        .ok { name := "Ada Two", email := "ada@example.com", password := "analytical" }
    ∧ (∃ u, u ∈ sampleDb.rows ∧ u.email = "ada@example.com")
    ∧ createUser sampleSignupEnv sampleDb
          { name := "Ada Two", email := "ada@example.com", password := "analytical" }
        = .error { message := "user already exists" }
    ∧ signup sampleSignupEnv sampleDb duplicateSignupReq =
        [.nextErr { message := "user already exists" }]
    ∧ signup sampleSignupEnv sampleDb duplicateSignupReq ≠
        [.respond 409 [("error", .val (.str "user with this email already exists"))]]
    ∧ responseCount (signup sampleSignupEnv sampleDb duplicateSignupReq) = 0
    ∧ signup sampleSignupEnv sampleDb freshSignupReq =
        [.sign { id := .num 6, email := .str "eve@example.com", role := .str "user" },
         .setCookie "token" "jwt:eve@example.com",
         .respond 201
           [("message", .val (.str "user registered")),
            ("user", .obj [("id", .num 6), ("name", .str "Eve"),
                           ("email", .str "eve@example.com"), ("role", .str "user")])]] := by
  refine ⟨rfl, ⟨_, List.mem_cons_self _ _, rfl⟩, rfl, rfl, ?_, rfl, rfl⟩
  decide

end Acquisitions
